import Mathlib

/-!
Shallow embedding of the captive-portal server (technicalnoodles/captive-portal).

The repository holds two equivalent implementations of an RFC 8908 captive
portal: `server1.py` (Flask) and an stdlib `http.server` variant
(`src/unnamed/part_000`, whose header names it "server1 copy.py").  The core
state is a process-lifetime set `ACCEPTED` of client-identity strings; three
routes read or write it:

  * `GET /.well-known/captive-portal` (`captive_portal_api`) answers the
    discovery probe with `{"captive": bool, "user-portal-url": string}`;
  * `GET /portal` (`portal_page`) serves `index.html` or 404s;
  * `GET /` (`root_index`) redirects 302 to `/portal`;
  * `POST /accept` (`accept_terms`) inserts the client identity into
    `ACCEPTED` and answers 204.

Environment-dependent inputs (the WSGI access route, the transport remote
address, the Host header, the server's own resolved address
`socket.gethostbyname(socket.gethostname())`, and whether `index.html`
exists on disk) are modelled as explicit parameters.  The mutable global
`ACCEPTED` is modelled as explicit state of type `Registry`, threaded
through the handlers; request handling becomes a step function over it.
-/

/-- JSON values appearing in the probe payload: Python booleans and strings. -/
inductive JsonVal where
  | bool (b : Bool)
  | str (s : String)
deriving DecidableEq, Repr

/-- Serialization of one JSON scalar, as Python json.dumps renders it. -/
def JsonVal.dump : JsonVal → String
  | JsonVal.bool true => "true"
  | JsonVal.bool false => "false"
  | JsonVal.str s => "\"" ++ s ++ "\""

/-- Comma-and-space separated `"key": value` entries of a JSON object, the way
Python json.dumps does with its default separators.  (None of the keys or
string values in this program needs character escaping.) -/
def jsonEntries : List (String × JsonVal) → String
  | [] => ""
  | [kv] => "\"" ++ kv.1 ++ "\": " ++ JsonVal.dump kv.2
  | kv :: rest => "\"" ++ kv.1 ++ "\": " ++ JsonVal.dump kv.2 ++ ", " ++ jsonEntries rest

/-- Embedding of Python json.dumps on a dict with the insertion-ordered
key/value pairs `kvs`. -/
def jsonDumps (kvs : List (String × JsonVal)) : String :=
  "\x7b" ++ jsonEntries kvs ++ "\x7d"

/-- The in-memory acceptance state `ACCEPTED = set()` (server1.py line 14),
keyed by client IP string.  A Python set is modelled as a duplicate-free
insertion list; only membership and idempotent insertion are ever used. -/
abbrev Registry := List String

/-- Embedding of the membership test `client_ip not in ACCEPTED` used by the
handlers, under the name the specification gives the registry read. -/
def IsAccepted (r : Registry) (c : String) : Bool :=
  decide (c ∈ r)

/-- Embedding of `ACCEPTED.add(client_ip)` (server1.py line 147), under the
name the specification gives the registry write: set insertion, a no-op when
the element is already present. -/
def Accept (r : Registry) (c : String) : Registry :=
  r.insert c

/-- PORTAL_PATH = "/portal" (server1.py line 17). -/
def PORTAL_PATH : String := "/portal"

/-- API_PATH = "/.well-known/captive-portal" (server1.py line 18). -/
def API_PATH : String := "/.well-known/captive-portal"

/-- ACCEPT_PATH = "/accept" (server1.py line 19). -/
def ACCEPT_PATH : String := "/accept"

/-- Embedding of portal_url_from_host (server1.py lines 25-28).  `hostHeader`
is request.headers.get("Host") (None when the header is absent); `selfAddr` is
the environment value socket.gethostbyname(socket.gethostname()).  Python
`host_header or fallback` takes the fallback when the header is None or the
empty string; the fallback appends the literal ":8000" regardless of the
port the server was configured to listen on. -/
def portal_url_from_host (hostHeader : Option String) (selfAddr : String) : String :=
  let scheme := "http"
  let host := match hostHeader with
    | none => selfAddr ++ ":8000"
    | some h => if h = "" then selfAddr ++ ":8000" else h
  scheme ++ "://" ++ host ++ PORTAL_PATH

/-- The per-request metadata the handlers read: request.access_route (the
forwarded-for chain as ProxyFix leaves it), request.remote_addr (None when the
transport gives no peer address), and the Host header. -/
structure RequestMeta where
  accessRoute : List String
  remoteAddr : Option String
  hostHeader : Option String
deriving DecidableEq, Repr

/-- Embedding of _client_ip (server1.py lines 41-42):
`(request.access_route[0] if request.access_route else request.remote_addr) or ""`.
A nonempty access route contributes its first element; otherwise the remote
address is used; a missing (None) value becomes "" through `or ""` (an empty
string is falsy in Python and also maps to ""). -/
def client_ip (accessRoute : List String) (remoteAddr : Option String) : String :=
  let raw : Option String := match accessRoute with
    | x :: _ => some x
    | [] => remoteAddr
  match raw with
  | none => ""
  | some s => s

/-- An HTTP response as the claims observe it: status code, body, the
explicitly set media type, the Cache-Control header when one is set, and the
Location header when one is set. -/
structure Response where
  status : Nat
  body : String
  mimetype : Option String
  cacheControl : Option String
  location : Option String
deriving DecidableEq, Repr

/-- The payload dict built by captive_portal_api (server1.py lines 119-124):
`captive = client_ip not in ACCEPTED`, and the portal URL from the Host
header. -/
def api_payload (accepted : Registry) (req : RequestMeta) (selfAddr : String) :
    List (String × JsonVal) :=
  let cip := client_ip req.accessRoute req.remoteAddr
  let captive := decide (cip ∉ accepted)
  [("captive", JsonVal.bool captive),
   ("user-portal-url", JsonVal.str (portal_url_from_host req.hostHeader selfAddr))]

/-- Embedding of captive_portal_api (server1.py lines 117-127):
make_response(json.dumps(payload), 200), mimetype "application/captive+json",
then no_store (server1.py lines 31-33) sets Cache-Control to "no-store". -/
def captive_portal_api (accepted : Registry) (req : RequestMeta) (selfAddr : String) :
    Response :=
  { status := 200
    body := jsonDumps (api_payload accepted req selfAddr)
    mimetype := some "application/captive+json"
    cacheControl := some "no-store"
    location := none }

/-- Embedding of portal_page (server1.py lines 130-136).  `indexExists` is
os.path.exists(ROOT_DIR/index.html); `indexHtml` its on-disk content.  When
the file exists, send_file serves it (media type text/html inferred from the
.html extension) and no_store adds Cache-Control: no-store; when it does not,
the handler returns the bare tuple ("index.html not found", 404) WITHOUT
passing it through no_store, so that branch sets no Cache-Control header and
no explicit media type. -/
def portal_page (indexExists : Bool) (indexHtml : String) : Response :=
  if indexExists then
    { status := 200
      body := indexHtml
      mimetype := some "text/html"
      cacheControl := some "no-store"
      location := none }
  else
    { status := 404
      body := "index.html not found"
      mimetype := none
      cacheControl := none
      location := none }

/-- Embedding of root_index (server1.py lines 139-141):
no_store(redirect(PORTAL_PATH, code=302)).  Flask's redirect boilerplate HTML
body is irrelevant to every claim and elided as "". -/
def root_index : Response :=
  { status := 302
    body := ""
    mimetype := none
    cacheControl := some "no-store"
    location := some PORTAL_PATH }

/-- Embedding of accept_terms (server1.py lines 144-150): derive the client
ip, ACCEPTED.add it, answer make_response("", 204) through no_store.  Returns
the new registry along with the response. -/
def accept_terms (accepted : Registry) (req : RequestMeta) : Registry × Response :=
  let cip := client_ip req.accessRoute req.remoteAddr
  (Accept accepted cip,
   { status := 204
     body := ""
     mimetype := none
     cacheControl := some "no-store"
     location := none })

/-- One inbound request to any of the four routes of server1.py, carrying the
request metadata the handler would read. -/
inductive Op where
  | probe (req : RequestMeta)
  | portal
  | root
  | acceptPost (req : RequestMeta)
deriving DecidableEq, Repr

/-- Registry evolution under one request: only POST /accept mutates the
ACCEPTED set; the three GET handlers read it or ignore it. -/
def stepState (r : Registry) : Op → Registry
  | Op.acceptPost req => (accept_terms r req).1
  | Op.probe _ => r
  | Op.portal => r
  | Op.root => r

/-- Registry evolution under a sequence of requests, oldest first. -/
def runOps (r : Registry) (ops : List Op) : Registry :=
  ops.foldl stepState r

/-- The ACCEPTED set starts empty at process start (server1.py line 14). -/
def initialRegistry : Registry := []

namespace ServerCopy

/-- Embedding of portal_url_from_host of the stdlib variant
(src/unnamed/part_000 lines 18-21), textually the same function as the Flask
one. -/
def portal_url_from_host (hostHeader : Option String) (selfAddr : String) : String :=
  let scheme := "http"
  let host := match hostHeader with
    | none => selfAddr ++ ":8000"
    | some h => if h = "" then selfAddr ++ ":8000" else h
  scheme ++ "://" ++ host ++ PORTAL_PATH

/-- The payload dict built by the API branch of CaptivePortalHandler.do_GET
(part_000 lines 47-55).  `clientAddr` is self.client_address[0], the raw
transport peer address. -/
def api_payload (accepted : Registry) (clientAddr : String) (hostHeader : Option String)
    (selfAddr : String) : List (String × JsonVal) :=
  let captive := decide (clientAddr ∉ accepted)
  [("captive", JsonVal.bool captive),
   ("user-portal-url", JsonVal.str (ServerCopy.portal_url_from_host hostHeader selfAddr))]

/-- Embedding of the response CaptivePortalHandler sends for the API branch
via _json (part_000 lines 29-36): 200, Content-Type application/captive+json,
Cache-Control no-store, the json.dumps of the payload as body. -/
def api_response (accepted : Registry) (clientAddr : String) (hostHeader : Option String)
    (selfAddr : String) : Response :=
  { status := 200
    body := jsonDumps (ServerCopy.api_payload accepted clientAddr hostHeader selfAddr)
    mimetype := some "application/captive+json"
    cacheControl := some "no-store"
    location := none }

/-- The standard library HTML error page: http.server
BaseHTTPRequestHandler.send_error fills DEFAULT_ERROR_MESSAGE with the status
code, the handler-supplied message and the standard explanation of the code,
HTML-escaping message and explanation (the identity on the strings this
program passes, which hold no HTML-special characters). -/
def error_page (code : Nat) (message explain : String) : String :=
  "<!DOCTYPE HTML>\n<html lang=\"en\">\n    <head>\n        <meta charset=\"utf-8\">\n" ++
  "        <title>Error response</title>\n    </head>\n    <body>\n" ++
  "        <h1>Error response</h1>\n        <p>Error code: " ++ toString code ++
  "</p>\n        <p>Message: " ++ message ++
  ".</p>\n        <p>Error code explanation: " ++ toString code ++ " - " ++ explain ++
  ".</p>\n    </body>\n</html>\n"

/-- Embedding of CaptivePortalHandler._serve_index (part_000 lines 75-87).
When index.html opens, the handler sends 200, text/html with charset, a
no-store directive and the file content; on FileNotFoundError it calls
send_error(404, "index.html not found"), which sends the stdlib HTML error
page embedding that message (Content-Type text/html;charset=utf-8, the
stdlib's error_content_type; for 404 the standard explanation is "Nothing
matches the given URI") with no Cache-Control header. -/
def serve_index (indexExists : Bool) (content : String) : Response :=
  if indexExists then
    { status := 200
      body := content
      mimetype := some "text/html; charset=utf-8"
      cacheControl := some "no-store"
      location := none }
  else
    { status := 404
      body := ServerCopy.error_page 404 "index.html not found" "Nothing matches the given URI"
      mimetype := some "text/html;charset=utf-8"
      cacheControl := none
      location := none }

/-- The branches of CaptivePortalHandler.do_GET (part_000 lines 43-62): the
path from urlparse(self.path) is matched against API_PATH, then PORTAL_PATH,
and anything else falls through to super().do_GET(), the stdlib
SimpleHTTPRequestHandler static file serving. -/
inductive GetBranch where
  | api
  | portal
  | staticFallback
deriving DecidableEq, Repr

/-- Embedding of the dispatch of CaptivePortalHandler.do_GET (part_000 lines
43-62) on the parsed request path. -/
def do_GET_branch (path : String) : GetBranch :=
  if path = API_PATH then GetBranch.api
  else if path = PORTAL_PATH then GetBranch.portal
  else GetBranch.staticFallback

/-- Modelled from the stdlib collaborator the fall-through reaches: for GET /
SimpleHTTPRequestHandler (part_000 line 62, serving ROOT_DIR after the
os.chdir in run) answers 200 with the directory index — index.html when
present, the generated directory listing otherwise — as `content`, media type
text/html, and sets neither a Location nor a Cache-Control header; it never
issues a redirect for the root path. -/
def static_root (content : String) : Response :=
  { status := 200
    body := content
    mimetype := some "text/html"
    cacheControl := none
    location := none }

/-- Embedding of the accept branch of CaptivePortalHandler.do_POST (part_000
lines 64-71): ACCEPTED.add(client_ip) then _no_content(204) with a no-store
header. -/
def do_POST_accept (accepted : Registry) (clientAddr : String) : Registry × Response :=
  (accepted.insert clientAddr,
   { status := 204
     body := ""
     mimetype := none
     cacheControl := some "no-store"
     location := none })

end ServerCopy

/-! ## Helper lemmas shared by the claim theorems -/

/-- Looking up the "captive" key of the probe payload yields the membership
complement of the derived client identity. -/
theorem api_payload_lookup_captive (accepted : Registry) (req : RequestMeta)
    (selfAddr : String) :
    (api_payload accepted req selfAddr).lookup "captive" =
      some (JsonVal.bool (decide (client_ip req.accessRoute req.remoteAddr ∉ accepted))) :=
  rfl

/-- Registry membership survives any single request. -/
theorem mem_stepState_of_mem {c : String} {r : Registry} (op : Op) (h : c ∈ r) :
    c ∈ stepState r op := by
  cases op with
  | acceptPost req => exact List.mem_insert_of_mem h
  | probe req => exact h
  | portal => exact h
  | root => exact h

/-- Registry membership survives any sequence of requests. -/
theorem mem_runOps_of_mem {c : String} {r : Registry} (ops : List Op) (h : c ∈ r) :
    c ∈ runOps r ops := by
  induction ops generalizing r with
  | nil => exact h
  | cons op rest ih => exact ih (mem_stepState_of_mem op h)

/-- An identity that no accept request of the sequence derives stays out of
the registry. -/
theorem not_mem_runOps {c : String} (ops : List Op) (r : Registry)
    (hops : ∀ req, Op.acceptPost req ∈ ops → client_ip req.accessRoute req.remoteAddr ≠ c)
    (h : c ∉ r) : c ∉ runOps r ops := by
  induction ops generalizing r with
  | nil => exact h
  | cons op rest ih =>
      refine ih _ (fun req hm => hops req (List.mem_cons_of_mem _ hm)) ?_
      cases op with
      | acceptPost req =>
          intro hc
          rcases List.mem_insert_iff.1 hc with hceq | hcr
          · exact hops req (List.mem_cons_self _ _) hceq.symm
          · exact h hcr
      | probe req => exact h
      | portal => exact h
      | root => exact h

/-! ## Claim theorems -/

/-- C1: starting from the empty registry, an identity never derived by any
POST /accept of the request sequence is not accepted and every discovery
probe it makes reports captive = true; conversely, after a POST /accept whose
derived identity is c, IsAccepted c holds and every subsequent probe from c,
after any further request sequence, reports captive = false. -/
theorem C1_acceptance_gates_probe (ops : List Op) (c : String)
    (hnever : ∀ req, Op.acceptPost req ∈ ops → client_ip req.accessRoute req.remoteAddr ≠ c) :
    (IsAccepted (runOps initialRegistry ops) c = false ∧
      ∀ (req : RequestMeta) (selfAddr : String),
        client_ip req.accessRoute req.remoteAddr = c →
        (api_payload (runOps initialRegistry ops) req selfAddr).lookup "captive" =
          some (JsonVal.bool true)) ∧
    ∀ (r : Registry) (req : RequestMeta),
      client_ip req.accessRoute req.remoteAddr = c →
      IsAccepted (accept_terms r req).1 c = true ∧
      ∀ (ops2 : List Op) (req2 : RequestMeta) (selfAddr : String),
        client_ip req2.accessRoute req2.remoteAddr = c →
        (api_payload (runOps (accept_terms r req).1 ops2) req2 selfAddr).lookup "captive" =
          some (JsonVal.bool false) := by
  have hnm : c ∉ runOps initialRegistry ops :=
    not_mem_runOps ops initialRegistry hnever (by simp [initialRegistry])
  refine ⟨⟨by simp [IsAccepted, hnm], ?_⟩, ?_⟩
  · intro req selfAddr hc
    rw [api_payload_lookup_captive, hc]
    simp [hnm]
  · intro r req hc
    have hmem : c ∈ (accept_terms r req).1 := by
      simp only [accept_terms, Accept, hc]
      exact List.mem_insert_self c r
    refine ⟨by simp [IsAccepted, hmem], ?_⟩
    intro ops2 req2 selfAddr hc2
    rw [api_payload_lookup_captive, hc2]
    simp [mem_runOps_of_mem ops2 hmem]

/-- C1 witness: with the empty request sequence and identity 10.0.0.5, the
probe of a never-accepted client reports captive, and a POST /accept from
10.0.0.5 flips its probe to not captive. -/
theorem C1_acceptance_gates_probe_witness :
    (IsAccepted (runOps initialRegistry []) "10.0.0.5" = false ∧
      (api_payload (runOps initialRegistry [])
          ⟨["10.0.0.5"], none, some "gw.local:8000"⟩ "127.0.0.1").lookup "captive" =
        some (JsonVal.bool true)) ∧
    IsAccepted (accept_terms initialRegistry ⟨["10.0.0.5"], none, none⟩).1 "10.0.0.5" = true ∧
    (api_payload (runOps (accept_terms initialRegistry ⟨["10.0.0.5"], none, none⟩).1 [])
        ⟨["10.0.0.5"], none, some "gw.local:8000"⟩ "127.0.0.1").lookup "captive" =
      some (JsonVal.bool false) := by
  have h := C1_acceptance_gates_probe [] "10.0.0.5" (by intro req hm; cases hm)
  exact ⟨⟨h.1.1, h.1.2 _ _ rfl⟩,
    (h.2 initialRegistry ⟨["10.0.0.5"], none, none⟩ rfl).1,
    (h.2 initialRegistry ⟨["10.0.0.5"], none, none⟩ rfl).2 [] _ _ rfl⟩

/-- C3: registry membership is monotonic over any sequence of requests, and
no request other than a POST /accept changes the registry at all. -/
theorem C3_registry_monotonic (r : Registry) (ops : List Op) (c : String)
    (h : IsAccepted r c = true) :
    IsAccepted (runOps r ops) c = true ∧
    ∀ op : Op, (∀ req, op ≠ Op.acceptPost req) → stepState r op = r := by
  constructor
  · have hm : c ∈ r := by simpa [IsAccepted] using h
    simp [IsAccepted, mem_runOps_of_mem ops hm]
  · intro op hop
    cases op with
    | acceptPost req => exact absurd rfl (hop req)
    | probe req => rfl
    | portal => rfl
    | root => rfl

/-- C3 witness: an identity accepted in the start state is still accepted
after a probe, a portal fetch, a root fetch and a foreign accept. -/
theorem C3_registry_monotonic_witness :
    IsAccepted
      (runOps ["10.0.0.5"]
        [Op.probe ⟨[], some "10.0.0.7", none⟩, Op.portal, Op.root,
         Op.acceptPost ⟨[], some "10.0.0.7", none⟩])
      "10.0.0.5" = true :=
  (C3_registry_monotonic ["10.0.0.5"]
    [Op.probe ⟨[], some "10.0.0.7", none⟩, Op.portal, Op.root,
     Op.acceptPost ⟨[], some "10.0.0.7", none⟩]
    "10.0.0.5" (by decide)).1

/-- C4: Accept is an idempotent total function on the registry, and the whole
accept_terms handler (state and response together) is idempotent in the same
sense. -/
theorem C4_accept_idempotent (r : Registry) (c : String) (req : RequestMeta) :
    Accept (Accept r c) c = Accept r c ∧
    accept_terms (accept_terms r req).1 req = accept_terms r req := by
  constructor
  · exact List.insert_of_mem (List.mem_insert_self c r)
  · simp [accept_terms, Accept, List.insert_of_mem]

/-- C5: accepting one identity never changes the membership status of a
different identity. -/
theorem C5_accept_frame (r : Registry) (c1 c2 : String) (h : c1 ≠ c2) :
    IsAccepted (Accept r c1) c2 = IsAccepted r c2 := by
  have hiff : c2 ∈ r.insert c1 ↔ c2 ∈ r := by
    rw [List.mem_insert_iff]
    exact or_iff_right fun hh => h hh.symm
  simp [IsAccepted, Accept, hiff]

/-- C5 witness: accepting 10.0.0.7 leaves the status of 10.0.0.5 unchanged,
both on a registry where 10.0.0.5 is present and on one where it is not. -/
theorem C5_accept_frame_witness :
    IsAccepted (Accept ["10.0.0.5"] "10.0.0.7") "10.0.0.5" =
      IsAccepted ["10.0.0.5"] "10.0.0.5" ∧
    IsAccepted (Accept [] "10.0.0.7") "10.0.0.5" = IsAccepted [] "10.0.0.5" :=
  ⟨C5_accept_frame ["10.0.0.5"] "10.0.0.7" "10.0.0.5" (by decide),
   C5_accept_frame [] "10.0.0.7" "10.0.0.5" (by decide)⟩

/-- Spec-side definition for comparison with portal_url_from_host (claim C2).
The specification describes the fallback URL, used when the Host header is
absent, as built from the server's own resolvable address and the CONFIGURED
listen port; `port` is that configured port (os.environ PORT, default 8000,
server1.py line 154). -/
def spec_fallback_portal_url (selfAddr : String) (port : Nat) : String :=
  "http://" ++ selfAddr ++ ":" ++ toString port ++ PORTAL_PATH

/-- C2 counterexample: with the server configured on port 9000 and no Host
header, the code falls back to the hard-coded ":8000", not to the configured
port as the claim states. -/
theorem C2_counterexample_fallback_port :
    portal_url_from_host none "192.168.1.2" = "http://192.168.1.2:8000/portal" ∧
    spec_fallback_portal_url "192.168.1.2" 9000 = "http://192.168.1.2:9000/portal" ∧
    portal_url_from_host none "192.168.1.2" ≠ spec_fallback_portal_url "192.168.1.2" 9000 :=
  ⟨rfl, rfl, by decide⟩

/-- C2 amended: every probe response is 200 application/captive+json with
Cache-Control no-store, its body the json.dumps of a payload with exactly the
two keys captive (the negation of IsAccepted on the derived identity) and
user-portal-url; the URL is "http://" ++ Host ++ "/portal" for a present
nonempty Host header, and falls back to the server's own resolvable address
with the fixed port 8000 when the header is absent or empty. -/
theorem C2_probe_response_amended (accepted : Registry) (req : RequestMeta)
    (selfAddr : String) :
    (captive_portal_api accepted req selfAddr).status = 200 ∧
    (captive_portal_api accepted req selfAddr).mimetype = some "application/captive+json" ∧
    (captive_portal_api accepted req selfAddr).cacheControl = some "no-store" ∧
    (captive_portal_api accepted req selfAddr).body =
      jsonDumps (api_payload accepted req selfAddr) ∧
    api_payload accepted req selfAddr =
      [("captive",
        JsonVal.bool (!(IsAccepted accepted (client_ip req.accessRoute req.remoteAddr)))),
       ("user-portal-url", JsonVal.str (portal_url_from_host req.hostHeader selfAddr))] ∧
    (∀ h : String, req.hostHeader = some h → h ≠ "" →
      portal_url_from_host req.hostHeader selfAddr = "http://" ++ h ++ PORTAL_PATH) ∧
    ((req.hostHeader = none ∨ req.hostHeader = some "") →
      portal_url_from_host req.hostHeader selfAddr =
        "http://" ++ (selfAddr ++ ":8000") ++ PORTAL_PATH) := by
  refine ⟨rfl, rfl, rfl, rfl, ?_, ?_, ?_⟩
  · simp [api_payload, IsAccepted, decide_not]
  · intro h hh hne
    simp only [portal_url_from_host, hh]
    rw [if_neg hne]
    rfl
  · intro hcase
    rcases hcase with hh | hh <;> rw [hh] <;> rfl

/-- C2 witness: the concrete scenario of the specification, Host
gw.local:8000 on a fresh registry, evaluated through the amended theorem. -/
theorem C2_probe_response_witness :
    (captive_portal_api [] ⟨["10.0.0.5"], none, some "gw.local:8000"⟩ "127.0.0.1").status =
      200 ∧
    (captive_portal_api [] ⟨["10.0.0.5"], none, some "gw.local:8000"⟩ "127.0.0.1").mimetype =
      some "application/captive+json" ∧
    (captive_portal_api [] ⟨["10.0.0.5"], none, some "gw.local:8000"⟩
        "127.0.0.1").cacheControl = some "no-store" ∧
    portal_url_from_host (some "gw.local:8000") "127.0.0.1" =
      "http://" ++ "gw.local:8000" ++ PORTAL_PATH := by
  have h := C2_probe_response_amended [] ⟨["10.0.0.5"], none, some "gw.local:8000"⟩ "127.0.0.1"
  exact ⟨h.1, h.2.1, h.2.2.1, h.2.2.2.2.2.1 "gw.local:8000" rfl (by decide)⟩

/-- C6 counterexample: the resource-missing branch of GET /portal in the
Flask server returns its 404 without passing through no_store, so that
response carries no Cache-Control directive at all. -/
theorem C6_counterexample_portal_404 :
    (portal_page false "<html></html>").status = 404 ∧
    (portal_page false "<html></html>").cacheControl ≠ some "no-store" ∧
    (portal_page false "<html></html>").cacheControl = none :=
  ⟨rfl, by decide, rfl⟩

/-- C6 amended: the probe and accept responses, and the successful portal
response, always carry Cache-Control no-store (in both implementations), but
the 404 resource-missing branch of GET /portal carries no Cache-Control
directive (in both implementations). -/
theorem C6_no_store_amended (r : Registry) (req : RequestMeta) (selfAddr : String)
    (content : String) (clientAddr : String) :
    (captive_portal_api r req selfAddr).cacheControl = some "no-store" ∧
    (accept_terms r req).2.cacheControl = some "no-store" ∧
    (portal_page true content).cacheControl = some "no-store" ∧
    (portal_page false content).cacheControl = none ∧
    (ServerCopy.api_response r clientAddr req.hostHeader selfAddr).cacheControl =
      some "no-store" ∧
    (ServerCopy.do_POST_accept r clientAddr).2.cacheControl = some "no-store" ∧
    (ServerCopy.serve_index true content).cacheControl = some "no-store" ∧
    (ServerCopy.serve_index false content).cacheControl = none :=
  ⟨rfl, rfl, rfl, rfl, rfl, rfl, rfl, rfl⟩

set_option maxRecDepth 8000 in
/-- C7 counterexample: the 404 resource-missing response of the stdlib
implementation (CaptivePortalHandler._serve_index via send_error) is the
standard library HTML error page — media type text/html;charset=utf-8, body
opening with an HTML doctype — not a short plain-text explanation. -/
theorem C7_counterexample_stdlib_html_404 :
    (ServerCopy.serve_index false "").status = 404 ∧
    (ServerCopy.serve_index false "").mimetype = some "text/html;charset=utf-8" ∧
    (ServerCopy.serve_index false "").mimetype ≠ some "text/plain" ∧
    String.take ((ServerCopy.serve_index false "").body) 15 = "<!DOCTYPE HTML>" :=
  ⟨rfl, rfl, by decide, rfl⟩

/-- C7 amended: in both implementations GET /portal answers 404 exactly when
index.html is absent and otherwise 200, text/html, no-store, with the file
content as body; each handler is a total function of these inputs, so no
other failure mode exists.  The Flask 404 body is the short non-empty
plain-text explanation "index.html not found"; the stdlib 404 is the standard
library HTML error page (text/html;charset=utf-8) embedding that message. -/
theorem C7_portal_page_amended (indexExists : Bool) (content : String) :
    ((portal_page indexExists content).status = 404 ↔ indexExists = false) ∧
    (portal_page true content).status = 200 ∧
    (portal_page true content).mimetype = some "text/html" ∧
    (portal_page true content).cacheControl = some "no-store" ∧
    (portal_page true content).body = content ∧
    (portal_page false content).status = 404 ∧
    (portal_page false content).body = "index.html not found" ∧
    (portal_page false content).body ≠ "" ∧
    ((ServerCopy.serve_index indexExists content).status = 404 ↔ indexExists = false) ∧
    (ServerCopy.serve_index true content).status = 200 ∧
    (ServerCopy.serve_index true content).mimetype = some "text/html; charset=utf-8" ∧
    (ServerCopy.serve_index true content).cacheControl = some "no-store" ∧
    (ServerCopy.serve_index true content).body = content ∧
    (ServerCopy.serve_index false content).status = 404 ∧
    (ServerCopy.serve_index false content).mimetype = some "text/html;charset=utf-8" ∧
    (ServerCopy.serve_index false content).body =
      ServerCopy.error_page 404 "index.html not found" "Nothing matches the given URI" := by
  refine ⟨?_, rfl, rfl, rfl, rfl, rfl, rfl, ?_, ?_, rfl, rfl, rfl, rfl, rfl, rfl, rfl⟩
  · cases indexExists <;> simp [portal_page]
  · show ("index.html not found" : String) ≠ ""
    decide
  · cases indexExists <;> simp [ServerCopy.serve_index]

/-- C8 counterexample: in the stdlib implementation GET / matches neither
API_PATH nor PORTAL_PATH and falls through to stdlib static file serving,
whose root response is a 200 with no Location and no Cache-Control header —
not a 302 redirect to /portal. -/
theorem C8_counterexample_root_fallthrough :
    ServerCopy.do_GET_branch "/" = ServerCopy.GetBranch.staticFallback ∧
    (ServerCopy.static_root "<html>portal</html>").status = 200 ∧
    (ServerCopy.static_root "<html>portal</html>").status ≠ 302 ∧
    (ServerCopy.static_root "<html>portal</html>").location ≠ some "/portal" ∧
    (ServerCopy.static_root "<html>portal</html>").cacheControl ≠ some "no-store" :=
  ⟨by decide, rfl, by decide, by decide, by decide⟩

/-- C8 amended: in the Flask implementation GET / always answers 302 with
Location /portal and Cache-Control no-store; in the stdlib implementation GET
/ is matched by no portal route and falls through to stdlib static file
serving, which answers 200 (the directory index) with no Location and no
Cache-Control header, issuing no redirect. -/
theorem C8_root_amended (content : String) :
    root_index.status = 302 ∧ root_index.location = some PORTAL_PATH ∧
    root_index.location = some "/portal" ∧ root_index.cacheControl = some "no-store" ∧
    ServerCopy.do_GET_branch "/" = ServerCopy.GetBranch.staticFallback ∧
    (ServerCopy.static_root content).status = 200 ∧
    (ServerCopy.static_root content).location = none ∧
    (ServerCopy.static_root content).cacheControl = none := by
  refine ⟨rfl, rfl, rfl, rfl, by decide, rfl, rfl, rfl⟩

/-- C9: for the same derived client identity, the same Host header, the same
resolved self address and the same ACCEPTED set, the Flask probe handler and
the stdlib-handler API branch build identical payloads (same captive boolean,
same user-portal-url, same key set) and identical JSON bodies. -/
theorem C9_implementations_agree (accepted : Registry) (req : RequestMeta) (c : String)
    (selfAddr : String) (hc : client_ip req.accessRoute req.remoteAddr = c) :
    api_payload accepted req selfAddr =
      ServerCopy.api_payload accepted c req.hostHeader selfAddr ∧
    (captive_portal_api accepted req selfAddr).body =
      (ServerCopy.api_response accepted c req.hostHeader selfAddr).body ∧
    (captive_portal_api accepted req selfAddr).mimetype =
      (ServerCopy.api_response accepted c req.hostHeader selfAddr).mimetype := by
  subst hc
  exact ⟨rfl, rfl, rfl⟩

/-- C9 witness: both implementations produce the same payload and body for
client 10.0.0.9 with Host gw.local:8000 on a registry holding 10.0.0.5. -/
theorem C9_implementations_agree_witness :
    api_payload ["10.0.0.5"] ⟨[], some "10.0.0.9", some "gw.local:8000"⟩ "127.0.0.1" =
      ServerCopy.api_payload ["10.0.0.5"] "10.0.0.9" (some "gw.local:8000") "127.0.0.1" ∧
    (captive_portal_api ["10.0.0.5"] ⟨[], some "10.0.0.9", some "gw.local:8000"⟩
        "127.0.0.1").body =
      (ServerCopy.api_response ["10.0.0.5"] "10.0.0.9" (some "gw.local:8000")
        "127.0.0.1").body := by
  have h := C9_implementations_agree ["10.0.0.5"] ⟨[], some "10.0.0.9", some "gw.local:8000"⟩
    "10.0.0.9" "127.0.0.1" rfl
  exact ⟨h.1, h.2.1⟩

/-- C10: with no forwarded-for route and no transport remote address the
derived identity is the empty string, and that string is an ordinary registry
key: one POST /accept from an identity-less client marks "" accepted, and
every subsequent probe from an identity-less client, after any further
request sequence, reports captive = false. -/
theorem C10_identityless_shared_entry :
    client_ip [] none = "" ∧
    ∀ (r : Registry) (h1 h2 : Option String) (selfAddr : String) (ops2 : List Op),
      IsAccepted (accept_terms r ⟨[], none, h1⟩).1 "" = true ∧
      (api_payload (runOps (accept_terms r ⟨[], none, h1⟩).1 ops2)
          ⟨[], none, h2⟩ selfAddr).lookup "captive" = some (JsonVal.bool false) := by
  refine ⟨rfl, ?_⟩
  intro r h1 h2 selfAddr ops2
  have hmem : "" ∈ (accept_terms r ⟨[], none, h1⟩).1 := List.mem_insert_self "" r
  refine ⟨by simp [IsAccepted, hmem], ?_⟩
  rw [api_payload_lookup_captive]
  simp [client_ip, mem_runOps_of_mem ops2 hmem]
